import Mathlib

/-
Verification of the space-booking web service (Express + MySQL).

The development shallowly embeds the handlers of the primary source file
(bookspace, cancelbooking, allspaces, addspace, deletespace, requireAuth and
the cron expiry sweep) as pure Lean functions over an explicit database state.

Modelling conventions:
- MySQL DATETIME values are modelled as their canonical
  "YYYY-MM-DD HH:MM:SS" strings; MySQL comparison on such values agrees with
  lexicographic string order, embedded here as sqlLt.
- Each SQL statement of a handler becomes one List operation on the state
  (SELECT = filter, INSERT = append, UPDATE = map, DELETE = filter-out).
- JavaScript String.prototype.replace with a string pattern replaces only the
  first occurrence of the pattern; jsReplaceFirst embeds exactly that.
- JavaScript truthiness on the inputs (`!user_id`, `!location`) is embedded as
  the explicit tests `== 0` on numbers and `== ""` on strings.
- jwt.verify is an external collaborator; it is passed in as an oracle
  `verify : String → Option Payload` (none models a thrown verification error,
  i.e. a bad signature or an expired token).
-/

/-- Tests whether the first list is an initial segment of the second
(the test JavaScript performs when matching a pattern string at a
position). -/
def listStarts : List Char → List Char → Bool
  | [], _ => true
  | _ :: _, [] => false
  | p :: ps, a :: rest => p == a && listStarts ps rest

/-- Embeds JavaScript String.prototype.replace with a string pattern:
only the FIRST occurrence of `pat` is replaced by `repl`. -/
def jsReplaceFirst (pat repl : List Char) : List Char → List Char
  | [] => []
  | a :: rest =>
    if listStarts pat (a :: rest) then repl ++ (a :: rest).drop pat.length
    else a :: jsReplaceFirst pat repl rest

/-- JavaScript `s.replace(pat, repl)` lifted to strings. -/
def jsReplace (s pat repl : String) : String :=
  String.mk (jsReplaceFirst pat.data repl.data s.data)

/-- Source `formatMySQLDatetime`:
`isoDate.replace("T", " ").replace("Z", "")`. -/
def formatMySQLDatetime (isoDate : String) : String :=
  jsReplace (jsReplace isoDate "T" " ") "Z" ""

/-- The timestamp rewrite as the specification words it: every occurrence of
'T' becomes a space, every occurrence of 'Z' is removed, all other characters
pass through unchanged. Stated for comparison with `formatMySQLDatetime`. -/
def specRewrite (s : String) : String :=
  String.mk ((s.data.map (fun c => if c == 'T' then ' ' else c)).filter
    (fun c => !(c == 'Z')))

/-- Number of occurrences of a character in a list. -/
def occCount (c : Char) : List Char → Nat
  | [] => 0
  | a :: rest => (if a == c then 1 else 0) + occCount c rest

/-- Strict lexicographic order on character lists, comparing characters by
code point. -/
def listLexLt : List Char → List Char → Bool
  | [], [] => false
  | [], _ :: _ => true
  | _ :: _, [] => false
  | a :: restA, b :: restB =>
    if a.toNat < b.toNat then true
    else if b.toNat < a.toNat then false
    else listLexLt restA restB

/-- MySQL DATETIME comparison, which on canonical
"YYYY-MM-DD HH:MM:SS" strings is lexicographic string order. -/
def sqlLt (a b : String) : Bool := listLexLt a.data b.data

/-- A row of the `spaces` table. -/
structure Space where
  space_id : Nat
  name : String
  location : String
  status : String
  start_time : String
  end_time : String
  usage_notes : String
  image_url : String
deriving Repr, DecidableEq

/-- A row of the `user_bookings` table. -/
structure Booking where
  booking_id : Nat
  user_id : Nat
  space_id : Nat
  start_time : String
  end_time : String
  status : String
deriving Repr, DecidableEq

/-- The database state: both tables plus the AUTO_INCREMENT counters. -/
structure Db where
  spaces : List Space
  bookings : List Booking
  nextSpaceId : Nat
  nextBookingId : Nat
deriving Repr, DecidableEq

/-- Outcome of POST /bookspace. -/
inductive BookResult
  | missingFields
  | spaceUnavailable
  | timeConflict
  | ok
deriving Repr, DecidableEq

/-- Outcome of POST /cancelbooking. -/
inductive CancelResult
  | missingFields
  | notFound
  | ok
deriving Repr, DecidableEq

/-- Query `SELECT * FROM spaces WHERE space_id = ? AND status = 'available'`. -/
def spaceAvailQuery (db : Db) (space_id : Nat) : List Space :=
  db.spaces.filter (fun s => s.space_id == space_id && s.status == "available")

/-- Query `SELECT * FROM user_bookings WHERE space_id = ? AND
(start_time < ? AND end_time > ?)` with parameters
[space_id, formattedEndTime, formattedStartTime].  Note: no filter on the
booking's status column. -/
def overlapQuery (db : Db) (space_id : Nat) (fStart fEnd : String) : List Booking :=
  db.bookings.filter
    (fun b => b.space_id == space_id && sqlLt b.start_time fEnd && sqlLt fStart b.end_time)

/-- Handler POST /bookspace of the primary variant: validate presence of the
four inputs, format the timestamps, require the space row to be 'available',
reject when the overlap query returns rows, otherwise insert the booking with
status 'booked' and set the space's status to 'reserved'. -/
def bookspace (db : Db) (user_id space_id : Nat) (start_time end_time : String) :
    BookResult × Db :=
  if user_id == 0 || space_id == 0 || start_time == "" || end_time == "" then
    (BookResult.missingFields, db)
  else
    let formattedStartTime := formatMySQLDatetime start_time
    let formattedEndTime := formatMySQLDatetime end_time
    if (spaceAvailQuery db space_id).isEmpty then
      (BookResult.spaceUnavailable, db)
    else
      if !(overlapQuery db space_id formattedStartTime formattedEndTime).isEmpty then
        (BookResult.timeConflict, db)
      else
        (BookResult.ok,
          { db with
            bookings := db.bookings ++
              [{ booking_id := db.nextBookingId, user_id := user_id,
                 space_id := space_id, start_time := formattedStartTime,
                 end_time := formattedEndTime, status := "booked" }],
            nextBookingId := db.nextBookingId + 1,
            spaces := db.spaces.map (fun s =>
              if s.space_id == space_id then { s with status := "reserved" } else s) })

/-- Query `SELECT * FROM user_bookings WHERE user_id = ? AND space_id = ?
AND status = 'booked'`. -/
def bookedQuery (db : Db) (user_id space_id : Nat) : List Booking :=
  db.bookings.filter
    (fun b => b.user_id == user_id && b.space_id == space_id && b.status == "booked")

/-- Handler POST /cancelbooking of the primary variant: 404 when the booked
query is empty, otherwise DELETE every user_bookings row for (user_id,
space_id) — no status filter on the DELETE — and set the space to
'available'. -/
def cancelbooking (db : Db) (user_id space_id : Nat) : CancelResult × Db :=
  if user_id == 0 || space_id == 0 then
    (CancelResult.missingFields, db)
  else
    if (bookedQuery db user_id space_id).isEmpty then
      (CancelResult.notFound, db)
    else
      (CancelResult.ok,
        { db with
          bookings := db.bookings.filter
            (fun b => !(b.user_id == user_id && b.space_id == space_id)),
          spaces := db.spaces.map (fun s =>
            if s.space_id == space_id then { s with status := "available" } else s) })

/-- One cycle of the cron sweep of the primary variant:
Step 1 deletes user_bookings rows whose space_id is returned by
`SELECT space_id FROM spaces WHERE end_time < now AND status = 'booked'`
(a condition on the SPACES status column);
Step 2 deletes spaces rows where `end_time < now AND status = 'reserved'`. -/
def expirySweep (db : Db) (now : String) : Db :=
  let expiredIds := (db.spaces.filter
    (fun s => sqlLt s.end_time now && s.status == "booked")).map (fun s => s.space_id)
  { db with
    bookings := db.bookings.filter (fun b => !(expiredIds.contains b.space_id)),
    spaces := db.spaces.filter (fun s => !(sqlLt s.end_time now && s.status == "reserved")) }

/-- Substring containment at the head or at any later position. -/
def containsSub (sub : List Char) : List Char → Bool
  | [] => sub.isEmpty
  | a :: rest => listStarts sub (a :: rest) || containsSub sub rest

/-- Case folding modelling MySQL's default case-insensitive collation
(basic-latin folding, as both collations fold A-Z onto a-z). -/
def foldCase (s : String) : List Char := s.data.map Char.toLower

/-- One literal segment of a LIKE pattern matched at the head of a string:
'_' matches any single character, every other character matches itself. -/
def segStarts : List Char → List Char → Bool
  | [], _ => true
  | _ :: _, [] => false
  | c :: ps, a :: rest => (if c == '_' then true else c == a) && segStarts ps rest

/-- All suffixes of a list, longest first. -/
def suffixList : List Char → List (List Char)
  | [] => [[]]
  | a :: rest => (a :: rest) :: suffixList rest

/-- Matches the '%'-separated literal segments of a LIKE pattern in order,
each at some position of the string, consuming left to right.  Because the
source always wraps the filter value as '%value%', every segment may float:
the leading and trailing '%' absorb arbitrary prefixes and suffixes, and each
inner '%' absorbs an arbitrary gap. -/
def seqMatch : List (List Char) → List Char → Bool
  | [], _ => true
  | seg :: segs, s =>
    (suffixList s).any (fun t => segStarts seg t && seqMatch segs (t.drop seg.length))

/-- Splits a LIKE pattern body at every '%' into its literal segments. -/
def splitPercent (acc : List Char) : List Char → List (List Char)
  | [] => [acc.reverse]
  | c :: rest =>
    if c == '%' then acc.reverse :: splitPercent [] rest
    else splitPercent (c :: acc) rest

/-- Embeds the source's `spaces.location LIKE '%{location}%'` under the
default case-insensitive collation: the interpolated value's '%' and '_' act
as LIKE wildcards ('%' any sequence, '_' any one character); backslash escape
sequences are not modelled. -/
def likeContains (loc s : String) : Bool :=
  seqMatch (splitPercent [] (foldCase loc)) (foldCase s)

/-- Embeds the source's SQL string comparison `status = '…'` under the
default case-insensitive collation. -/
def sqlEqCI (a b : String) : Bool := foldCase a == foldCase b

/-- The location filter as the specification words it — plain case-insensitive
substring containment, with no wildcard role for '%' or '_'.  Stated for
comparison with `likeContains`. -/
def substrCI (sub s : String) : Bool := containsSub (foldCase sub) (foldCase s)

/-- Handler GET /allspaces of the primary variant, restricted to which spaces
rows satisfy the WHERE clause (the LEFT JOIN only adds booked-by columns and
does not affect which spaces match).  A query parameter that is absent or the
empty string is falsy in JavaScript, so its filter is skipped. -/
def allspaces (db : Db) (location status : Option String) : List Space :=
  let q1 := match location with
    | some l =>
      if l == "" then db.spaces
      else db.spaces.filter (fun s => likeContains l s.location)
    | none => db.spaces
  match status with
  | some st => if st == "" then q1 else q1.filter (fun s => sqlEqCI s.status st)
  | none => q1

/-- A decoded JWT payload. -/
structure Payload where
  id : Nat
  username : String
  role : String
deriving Repr, DecidableEq

/-- Outcome of the requireAuth middleware. -/
inductive AuthOutcome
  | missingHeader
  | malformedHeader
  | invalidToken
  | authorized (payload : Payload)
deriving Repr, DecidableEq

/-- Splits a character list at every space character, embedding
JavaScript `header.split(" ")`. -/
def splitOnSpaceAux (acc : List Char) : List Char → List (List Char)
  | [] => [acc.reverse]
  | c :: rest =>
    if c == ' ' then acc.reverse :: splitOnSpaceAux [] rest
    else splitOnSpaceAux (c :: acc) rest

/-- JavaScript `s.split(" ")`. -/
def jsSplitSpace (s : String) : List String :=
  (splitOnSpaceAux [] s.data).map String.mk

/-- Middleware requireAuth of the primary variant: 401 when the header is
absent, when it does not parse as `Bearer <token>`, or when verification
fails.  NOTE: this variant performs no role check. -/
def requireAuth (verify : String → Option Payload) (header : Option String) :
    AuthOutcome :=
  match header with
  | none => AuthOutcome.missingHeader
  | some h =>
    let parts := jsSplitSpace h
    let ty := parts.headD ""
    match parts[1]? with
    | none => AuthOutcome.malformedHeader
    | some token =>
      if ty != "Bearer" || token == "" then AuthOutcome.malformedHeader
      else
        match verify token with
        | some payload => AuthOutcome.authorized payload
        | none => AuthOutcome.invalidToken

/-- Outcome of the admin CRUD handlers. -/
inductive AdminResult
  | unauthorized
  | forbidden
  | notFound
  | created
  | ok
deriving Repr, DecidableEq

/-- Handler POST /addspace of the primary variant: requireAuth, then INSERT.
NOTE: the handler contains no role check of its own. -/
def addspace (verify : String → Option Payload) (header : Option String)
    (db : Db) (name location status start_time end_time usage_notes image_url : String) :
    AdminResult × Db :=
  match requireAuth verify header with
  | AuthOutcome.authorized _ =>
      (AdminResult.created,
        { db with
          spaces := db.spaces ++
            [{ space_id := db.nextSpaceId, name := name, location := location,
               status := status, start_time := start_time, end_time := end_time,
               usage_notes := usage_notes, image_url := image_url }],
          nextSpaceId := db.nextSpaceId + 1 })
  | _ => (AdminResult.unauthorized, db)

/-- Handler DELETE /deletespace/:id of the primary variant: requireAuth, an
inline role check (403 for non-admin), 404 when no row is deleted, otherwise
delete the space and its bookings. -/
def deletespace (verify : String → Option Payload) (header : Option String)
    (db : Db) (id : Nat) : AdminResult × Db :=
  match requireAuth verify header with
  | AuthOutcome.authorized payload =>
      if payload.role != "admin" then (AdminResult.forbidden, db)
      else
        let remaining := db.spaces.filter (fun s => !(s.space_id == id))
        if remaining.length == db.spaces.length then (AdminResult.notFound, db)
        else
          (AdminResult.ok,
            { db with
              spaces := remaining,
              bookings := db.bookings.filter (fun b => !(b.space_id == id)) })
  | _ => (AdminResult.unauthorized, db)

/-- Shorthand for a spaces row. -/
def mkSpace (i : Nat) (nm loc st stt ett : String) : Space :=
  { space_id := i, name := nm, location := loc, status := st,
    start_time := stt, end_time := ett, usage_notes := "", image_url := "" }

/-- Shorthand for a user_bookings row. -/
def mkBooking (bid uid sid : Nat) (stt ett st : String) : Booking :=
  { booking_id := bid, user_id := uid, space_id := sid,
    start_time := stt, end_time := ett, status := st }

/-- State for the overlap-status scenario: an available space whose only
booking on record is a CANCELLED one for 10:00-11:00. -/
def exDb1 : Db :=
  { spaces := [mkSpace 1 "Lab A" "Block A" "available"
      "2025-01-01 08:00:00" "2025-01-01 20:00:00"],
    bookings := [mkBooking 1 2 1 "2025-01-01 10:00:00" "2025-01-01 11:00:00" "cancelled"],
    nextSpaceId := 2, nextBookingId := 2 }

/-- State for the sweeper scenario: a reserved space whose end_time has
passed, carrying one booked booking. -/
def exDb2 : Db :=
  { spaces := [mkSpace 1 "Lab" "Block B" "reserved"
      "2025-01-01 08:00:00" "2025-01-01 10:00:00"],
    bookings := [mkBooking 1 5 1 "2025-01-01 08:00:00" "2025-01-01 10:00:00" "booked"],
    nextSpaceId := 2, nextBookingId := 2 }

/-- Wall-clock instant used for the sweeper scenario. -/
def exNow2 : String := "2025-06-01 00:00:00"

/-- State for the amended sweeper theorem's witness: one expired reserved
space with a booked booking and one untouched available space. -/
def exDb2w : Db :=
  { spaces := [mkSpace 1 "Lab" "Block B" "reserved"
      "2025-01-01 08:00:00" "2025-01-01 10:00:00",
      mkSpace 2 "Hall" "Block C" "available"
      "2025-01-01 08:00:00" "2025-12-01 10:00:00"],
    bookings := [mkBooking 1 5 1 "2025-01-01 08:00:00" "2025-01-01 10:00:00" "booked"],
    nextSpaceId := 3, nextBookingId := 2 }

/-- Verification oracle knowing one valid token whose payload carries the
non-admin role 'student'. -/
def exVerify : String → Option Payload := fun t =>
  if t == "student-token" then some { id := 7, username := "bob", role := "student" }
  else none

/-- Empty database for the access-guard scenario. -/
def exDb3 : Db := { spaces := [], bookings := [], nextSpaceId := 1, nextBookingId := 1 }

/-- State for the booking-success scenario: an available space whose only
booking on record is a CANCELLED one covering 09:00-12:00. -/
def exDb4 : Db :=
  { spaces := [mkSpace 2 "Pod" "Block B" "available"
      "2025-02-02 08:00:00" "2025-02-02 20:00:00"],
    bookings := [mkBooking 1 5 2 "2025-02-02 09:00:00" "2025-02-02 12:00:00" "cancelled"],
    nextSpaceId := 3, nextBookingId := 2 }

/-- Empty database: any booking attempt on it meets no available space. -/
def exDb5 : Db := { spaces := [], bookings := [], nextSpaceId := 1, nextBookingId := 1 }

/-- State for the cancellation-success scenario. -/
def exDb6 : Db :=
  { spaces := [mkSpace 3 "Room" "Block C" "reserved"
      "2025-03-03 08:00:00" "2025-03-03 20:00:00"],
    bookings := [mkBooking 1 9 3 "2025-03-03 10:00:00" "2025-03-03 11:00:00" "booked"],
    nextSpaceId := 4, nextBookingId := 2 }

/-- State for the cancellation-of-absent-booking scenario: the only row for
the pair is already cancelled. -/
def exDb7 : Db :=
  { spaces := [mkSpace 4 "Studio" "Block D" "available"
      "2025-03-04 08:00:00" "2025-03-04 20:00:00"],
    bookings := [mkBooking 1 9 4 "2025-03-04 10:00:00" "2025-03-04 11:00:00" "cancelled"],
    nextSpaceId := 5, nextBookingId := 2 }

/-- State for the cancellation frame-effect scenario: the pair (6, 5) has
both a booked row and a historical cancelled row. -/
def exDb9 : Db :=
  { spaces := [mkSpace 5 "Den" "Block E" "reserved"
      "2025-03-05 08:00:00" "2025-03-05 20:00:00"],
    bookings := [mkBooking 1 6 5 "2025-03-05 10:00:00" "2025-03-05 11:00:00" "booked",
      mkBooking 2 6 5 "2025-02-05 10:00:00" "2025-02-05 11:00:00" "cancelled"],
    nextSpaceId := 6, nextBookingId := 3 }

/-- A space whose location contains "LAB" up to case. -/
def exSp8 : Space :=
  mkSpace 1 "Lab A" "Science lab wing" "available"
    "2025-01-01 08:00:00" "2025-01-01 20:00:00"

/-- State for the listing-filters scenario. -/
def exDb8 : Db :=
  { spaces := [exSp8,
      mkSpace 2 "Hall" "Main block" "reserved"
      "2025-01-01 08:00:00" "2025-01-01 20:00:00"],
    bookings := [], nextSpaceId := 3, nextBookingId := 1 }

/-- A space located "axb": matched by the LIKE pattern %a%b% although "a%b"
is not a substring of its location. -/
def exSpL : Space :=
  mkSpace 9 "Annex" "axb" "available"
    "2025-01-01 08:00:00" "2025-01-01 20:00:00"

/-- State for the listing counterexample. -/
def exDbL : Db :=
  { spaces := [exSpL], bookings := [], nextSpaceId := 10, nextBookingId := 1 }

/-- State for the timestamp-normalization witness: an available space with a
booked booking at 10:00-11:00. -/
def exDb10 : Db :=
  { spaces := [mkSpace 6 "Hub" "Block F" "available"
      "2025-04-04 08:00:00" "2025-04-04 20:00:00"],
    bookings := [mkBooking 1 2 6 "2025-04-04 10:00:00" "2025-04-04 11:00:00" "booked"],
    nextSpaceId := 7, nextBookingId := 2 }

/-- A list is nonempty as soon as some member satisfies the filter. -/
lemma filter_isEmpty_false_of_mem {α : Type} (p : α → Bool) (l : List α) (a : α)
    (ha : a ∈ l) (hp : p a = true) : (l.filter p).isEmpty = false := by
  have hmem : a ∈ l.filter p := List.mem_filter.mpr ⟨ha, hp⟩
  cases hc : l.filter p with
  | nil => rw [hc] at hmem; cases hmem
  | cons x xs => rfl

/-- A filter result is empty exactly when no member satisfies the filter. -/
lemma filter_isEmpty_true_iff {α : Type} (p : α → Bool) (l : List α) :
    (l.filter p).isEmpty = true ↔ ∀ a ∈ l, p a = false := by
  constructor
  · intro h a ha
    cases hp : p a with
    | false => rfl
    | true =>
      have hmem : a ∈ l.filter p := List.mem_filter.mpr ⟨ha, hp⟩
      cases hc : l.filter p with
      | nil => rw [hc] at hmem; cases hmem
      | cons x xs => rw [hc] at h; cases h
  · intro h
    cases hc : l.filter p with
    | nil => rfl
    | cons x xs =>
      have hmem : x ∈ l.filter p := by rw [hc]; exact List.mem_cons_self x xs
      have := List.mem_filter.mp hmem
      rw [h x this.1] at this
      cases this.2


/-- A filter result is nonempty exactly when some member satisfies the
filter. -/
lemma filter_isEmpty_false_iff {α : Type} (p : α → Bool) (l : List α) :
    (l.filter p).isEmpty = false ↔ ∃ a ∈ l, p a = true := by
  constructor
  · intro h
    cases hc : l.filter p with
    | nil => rw [hc] at h; cases h
    | cons x xs =>
      have hmem : x ∈ l.filter p := by rw [hc]; exact List.mem_cons_self x xs
      have := List.mem_filter.mp hmem
      exact ⟨x, this.1, this.2⟩
  · rintro ⟨a, ha, hp⟩
    exact filter_isEmpty_false_of_mem p l a ha hp

/-- Auxiliary shape lemma: a booking attempt either succeeds or leaves the
database untouched. -/
lemma bookspace_ok_or_unchanged (db : Db) (u s : Nat) (st et : String) :
    (bookspace db u s st et).1 = BookResult.ok ∨ (bookspace db u s st et).2 = db := by
  unfold bookspace
  dsimp only
  split
  · exact Or.inr rfl
  · split
    · exact Or.inr rfl
    · split
      · exact Or.inr rfl
      · exact Or.inl rfl

/-- Claim C5: every book request that fails because the space is unavailable
or because of a time conflict makes no state change — no booking row is
inserted and no space status is modified. -/
theorem bookspace_failure_no_writes (db : Db) (u s : Nat) (st et : String)
    (h : (bookspace db u s st et).1 = BookResult.spaceUnavailable ∨
         (bookspace db u s st et).1 = BookResult.timeConflict) :
    (bookspace db u s st et).2 = db := by
  rcases bookspace_ok_or_unchanged db u s st et with hok | hunch
  · rcases h with h | h <;> rw [hok] at h <;> cases h
  · exact hunch

/-- Witness for bookspace_failure_no_writes: on the empty database any
booking attempt fails as unavailable and changes nothing. -/
theorem bookspace_failure_no_writes_witness :
    ((bookspace exDb5 1 1 "2025-01-01T10:00:00Z" "2025-01-01T11:00:00Z").1 =
        BookResult.spaceUnavailable ∨
     (bookspace exDb5 1 1 "2025-01-01T10:00:00Z" "2025-01-01T11:00:00Z").1 =
        BookResult.timeConflict) ∧
    (bookspace exDb5 1 1 "2025-01-01T10:00:00Z" "2025-01-01T11:00:00Z").2 = exDb5 :=
  ⟨Or.inl (by decide),
   bookspace_failure_no_writes exDb5 1 1 "2025-01-01T10:00:00Z" "2025-01-01T11:00:00Z"
     (Or.inl (by decide))⟩

/-- Claim C6: when a booked booking exists for (user_id, space_id), cancel
succeeds, that pair's booking rows are removed, and every spaces row with
that id is reset to 'available'. -/
theorem cancelbooking_success (db : Db) (u s : Nat) (hu : u ≠ 0) (hs : s ≠ 0)
    (hb : ∃ b ∈ db.bookings, b.user_id = u ∧ b.space_id = s ∧ b.status = "booked") :
    (cancelbooking db u s).1 = CancelResult.ok ∧
    (∀ b ∈ (cancelbooking db u s).2.bookings, ¬(b.user_id = u ∧ b.space_id = s)) ∧
    (∀ sp ∈ (cancelbooking db u s).2.spaces, sp.space_id = s → sp.status = "available") := by
  have h1 : (u == 0 || s == 0) = false := by simp [hu, hs]
  have h2 : (bookedQuery db u s).isEmpty = false := by
    obtain ⟨b, hbm, hbu, hbs, hbst⟩ := hb
    exact filter_isEmpty_false_of_mem _ _ b hbm (by simp [hbu, hbs, hbst])
  refine ⟨?_, ?_, ?_⟩
  · simp [cancelbooking, h1, h2]
  · intro b hbm
    simp only [cancelbooking, h1, h2] at hbm
    simp only [Bool.false_eq_true, if_false] at hbm
    have := (List.mem_filter.mp hbm).2
    rintro ⟨hbu, hbs⟩
    simp [hbu, hbs] at this
  · intro sp hspm
    simp only [cancelbooking, h1, h2] at hspm
    simp only [Bool.false_eq_true, if_false] at hspm
    obtain ⟨s0, hs0, hfs0⟩ := List.mem_map.mp hspm
    cases hc : (s0.space_id == s) with
    | true => rw [hc] at hfs0; simp at hfs0; intro _; rw [← hfs0]
    | false =>
      rw [hc] at hfs0; simp at hfs0
      intro heq
      rw [← hfs0] at heq
      simp [heq] at hc

/-- Witness for cancelbooking_success: user 9 cancels the booked booking on
space 3. -/
theorem cancelbooking_success_witness :
    (9 ≠ 0 ∧ 3 ≠ 0 ∧
      ∃ b ∈ exDb6.bookings, b.user_id = 9 ∧ b.space_id = 3 ∧ b.status = "booked") ∧
    ((cancelbooking exDb6 9 3).1 = CancelResult.ok ∧
     (∀ b ∈ (cancelbooking exDb6 9 3).2.bookings, ¬(b.user_id = 9 ∧ b.space_id = 3)) ∧
     (∀ sp ∈ (cancelbooking exDb6 9 3).2.spaces, sp.space_id = 3 → sp.status = "available")) :=
  ⟨⟨by decide, by decide, by decide⟩,
   cancelbooking_success exDb6 9 3 (by decide) (by decide) (by decide)⟩

/-- Claim C7: when no booked booking exists for (user_id, space_id) — absent
or already cancelled — cancel fails with not-found and performs no writes at
all. -/
theorem cancelbooking_notFound_no_writes (db : Db) (u s : Nat)
    (hu : u ≠ 0) (hs : s ≠ 0)
    (hnone : ∀ b ∈ db.bookings, b.user_id = u → b.space_id = s → b.status ≠ "booked") :
    cancelbooking db u s = (CancelResult.notFound, db) := by
  have h1 : (u == 0 || s == 0) = false := by simp [hu, hs]
  have h2 : (bookedQuery db u s).isEmpty = true := by
    unfold bookedQuery
    rw [filter_isEmpty_true_iff]
    intro b hbm
    cases hp : (b.user_id == u && b.space_id == s && b.status == "booked") with
    | false => rfl
    | true =>
      simp only [Bool.and_eq_true, beq_iff_eq] at hp
      exact absurd hp.2 (hnone b hbm hp.1.1 hp.1.2)
  simp [cancelbooking, h1, h2]

/-- Witness for cancelbooking_notFound_no_writes: the only row for the pair
(9, 4) is already cancelled. -/
theorem cancelbooking_notFound_no_writes_witness :
    (9 ≠ 0 ∧ 4 ≠ 0 ∧
      ∀ b ∈ exDb7.bookings, b.user_id = 9 → b.space_id = 4 → b.status ≠ "booked") ∧
    cancelbooking exDb7 9 4 = (CancelResult.notFound, exDb7) :=
  ⟨⟨by decide, by decide, by decide⟩,
   cancelbooking_notFound_no_writes exDb7 9 4 (by decide) (by decide) (by decide)⟩

/-- Claim C9: a successful cancel deletes EVERY user_bookings row matching
the (user_id, space_id) pair, regardless of its status, and keeps exactly
the rows of other pairs. -/
theorem cancelbooking_deletes_all_statuses (db : Db) (u s : Nat)
    (hu : u ≠ 0) (hs : s ≠ 0)
    (hb : ∃ b ∈ db.bookings, b.user_id = u ∧ b.space_id = s ∧ b.status = "booked") :
    (cancelbooking db u s).1 = CancelResult.ok ∧
    (cancelbooking db u s).2.bookings =
      db.bookings.filter (fun b => !(b.user_id == u && b.space_id == s)) := by
  have h1 : (u == 0 || s == 0) = false := by simp [hu, hs]
  have h2 : (bookedQuery db u s).isEmpty = false := by
    obtain ⟨b, hbm, hbu, hbs, hbst⟩ := hb
    exact filter_isEmpty_false_of_mem _ _ b hbm (by simp [hbu, hbs, hbst])
  constructor
  · simp [cancelbooking, h1, h2]
  · simp [cancelbooking, h1, h2]

/-- Witness for cancelbooking_deletes_all_statuses: cancelling the pair
(6, 5) removes both its booked row and its historical cancelled row. -/
theorem cancelbooking_deletes_all_statuses_witness :
    (6 ≠ 0 ∧ 5 ≠ 0 ∧
      ∃ b ∈ exDb9.bookings, b.user_id = 6 ∧ b.space_id = 5 ∧ b.status = "booked") ∧
    ((cancelbooking exDb9 6 5).1 = CancelResult.ok ∧
     (cancelbooking exDb9 6 5).2.bookings =
       exDb9.bookings.filter (fun b => !(b.user_id == 6 && b.space_id == 5))) :=
  ⟨⟨by decide, by decide, by decide⟩,
   cancelbooking_deletes_all_statuses exDb9 6 5 (by decide) (by decide) (by decide)⟩

/-- Claim C1 (divergence witness): on a state whose only booking for the
space is CANCELLED yet overlaps the requested window, the book operation
still fails with a time conflict, although no booking with status 'booked'
exists at all.  The overlap query carries no status filter. -/
theorem bookspace_conflicts_on_cancelled_rows :
    (bookspace exDb1 1 1 "2025-01-01T10:30:00Z" "2025-01-01T11:30:00Z").1 =
      BookResult.timeConflict ∧
    exDb1.bookings.all (fun b => !(b.status == "booked")) = true ∧
    exDb1.spaces.all (fun s => s.status == "available") = true := by
  refine ⟨by decide, by decide, by decide⟩

/-- Claim C4 (divergence witness): all four inputs are present, the space is
'available', and no booking with status 'booked' overlaps the requested
window, yet the book operation fails with a time conflict instead of
succeeding, because the overlap query also counts the CANCELLED row. -/
theorem bookspace_success_blocked_by_cancelled_row :
    bookspace exDb4 3 2 "2025-02-02T10:00:00Z" "2025-02-02T11:00:00Z" =
      (BookResult.timeConflict, exDb4) ∧
    exDb4.spaces.any (fun s => s.space_id == 2 && s.status == "available") = true ∧
    exDb4.bookings.all (fun b => !(b.status == "booked")) = true := by
  refine ⟨by decide, by decide, by decide⟩

/-- Claim C3 (divergence witness): a request bearing a VALID token whose role
is 'student' (not admin) is accepted by POST /addspace — the middleware of
this variant has no role check and the handler has none either — so the
insert is performed and 201 returned instead of 403 Forbidden. -/
theorem addspace_accepts_valid_non_admin_token :
    (addspace exVerify (some "Bearer student-token") exDb3
        "Lab Z" "Block Z" "available" "2025-05-05 08:00:00" "2025-05-05 20:00:00"
        "notes" "img").1 = AdminResult.created ∧
    (addspace exVerify (some "Bearer student-token") exDb3
        "Lab Z" "Block Z" "available" "2025-05-05 08:00:00" "2025-05-05 20:00:00"
        "notes" "img").2.spaces.length = exDb3.spaces.length + 1 ∧
    exVerify "student-token" = some { id := 7, username := "bob", role := "student" } := by
  refine ⟨by decide, by decide, by decide⟩

/-- Claim C2 counterexample: a space with status 'reserved' and an elapsed
end_time is DELETED by the sweep, not reset to 'available', and its booked
booking rows all survive (the booking-deletion subquery selects spaces whose
status is 'booked', which this space does not have). -/
theorem expirySweep_claim_false_on_exDb2 :
    (expirySweep exDb2 exNow2).spaces = [] ∧
    (expirySweep exDb2 exNow2).bookings = exDb2.bookings ∧
    exDb2.spaces.all (fun s => s.status == "reserved" && sqlLt s.end_time exNow2) = true ∧
    exDb2.bookings.all (fun b => b.status == "booked") = true := by
  refine ⟨by decide, by decide, by decide, by decide⟩

/-- Claim C2 as amended: after one sweep cycle, exactly the spaces rows with
status 'reserved' and elapsed end_time are deleted (never reset to
'available'), and — provided no spaces row carries the status 'booked',
which the space state machine never assigns — the bookings table is left
completely unchanged. -/
theorem expirySweep_amended (db : Db) (now : String)
    (h : ∀ s ∈ db.spaces, s.status ≠ "booked") :
    (expirySweep db now).spaces =
      db.spaces.filter (fun s => !(sqlLt s.end_time now && s.status == "reserved")) ∧
    (expirySweep db now).bookings = db.bookings := by
  constructor
  · rfl
  · have hnil : db.spaces.filter (fun s => sqlLt s.end_time now && s.status == "booked")
        = [] := by
      cases hc : db.spaces.filter (fun s => sqlLt s.end_time now && s.status == "booked") with
      | nil => rfl
      | cons x xs =>
        have hmem : x ∈ db.spaces.filter
            (fun s => sqlLt s.end_time now && s.status == "booked") := by
          rw [hc]; exact List.mem_cons_self x xs
        have hx := List.mem_filter.mp hmem
        have hb := hx.2
        simp only [Bool.and_eq_true, beq_iff_eq] at hb
        exact absurd hb.2 (h x hx.1)
    show db.bookings.filter _ = db.bookings
    rw [hnil]
    simp

/-- Witness for expirySweep_amended: the expired reserved space of exDb2w is
deleted, the fresh available space survives, and the bookings are
untouched. -/
theorem expirySweep_amended_witness :
    (∀ s ∈ exDb2w.spaces, s.status ≠ "booked") ∧
    ((expirySweep exDb2w exNow2).spaces =
       exDb2w.spaces.filter (fun s => !(sqlLt s.end_time exNow2 && s.status == "reserved")) ∧
     (expirySweep exDb2w exNow2).bookings = exDb2w.bookings) :=
  ⟨by decide, expirySweep_amended exDb2w exNow2 (by decide)⟩

/-- Building a character from a code point below the surrogate range and
reading its code point back recovers the code point. -/
lemma toNat_ofNat_small (m : Nat) (h : m < 0xd800) : (Char.ofNat m).toNat = m := by
  unfold Char.ofNat
  rw [dif_pos (Or.inl h)]
  rfl

/-- Case folding never turns a character into a symbol outside the letter
ranges, nor away from one: comparing against such a symbol is unaffected. -/
lemma toLower_beq_symbol (c d : Char) (hd1 : ¬(65 ≤ d.toNat ∧ d.toNat ≤ 90))
    (hd2 : ¬(97 ≤ d.toNat ∧ d.toNat ≤ 122)) : (c.toLower == d) = (c == d) := by
  unfold Char.toLower
  by_cases h : c.toNat ≥ 65 ∧ c.toNat ≤ 90
  · rw [if_pos h]
    have h1 : (Char.ofNat (c.toNat + 32)).toNat = c.toNat + 32 :=
      toNat_ofNat_small _ (by omega)
    have h2 : (Char.ofNat (c.toNat + 32) == d) = false := by
      rw [beq_eq_false_iff_ne]
      intro he
      have h3 := congrArg Char.toNat he
      rw [h1] at h3
      omega
    have h4 : (c == d) = false := by
      rw [beq_eq_false_iff_ne]
      intro he
      subst he
      omega
    rw [h2, h4]
  · rw [if_neg h]

/-- Comparing against the '%' wildcard commutes with case folding. -/
lemma toLower_beq_pct (c : Char) : (c.toLower == '%') = (c == '%') :=
  toLower_beq_symbol c '%' (by decide) (by decide)

/-- Comparing against the '_' wildcard commutes with case folding. -/
lemma toLower_beq_und (c : Char) : (c.toLower == '_') = (c == '_') :=
  toLower_beq_symbol c '_' (by decide) (by decide)

/-- A wildcard-free filter value stays wildcard-free after case folding. -/
lemma foldCase_no_wild (s : String)
    (h : s.data.all (fun c => !(c == '%') && !(c == '_')) = true) :
    (foldCase s).all (fun c => !(c == '%') && !(c == '_')) = true := by
  unfold foldCase
  rw [List.all_map]
  rw [List.all_eq_true] at h ⊢
  intro c hc
  have hcc := h c hc
  simp only [Function.comp_apply, toLower_beq_pct, toLower_beq_und]
  exact hcc

/-- A pattern body without '%' splits into a single literal segment. -/
lemma splitPercent_no_pct (p : List Char) (hp : ∀ c ∈ p, (c == '%') = false) :
    ∀ acc, splitPercent acc p = [acc.reverse ++ p] := by
  induction p with
  | nil => intro acc; simp [splitPercent]
  | cons c rest ih =>
    intro acc
    have hc := hp c (List.mem_cons_self c rest)
    simp only [splitPercent, hc, Bool.false_eq_true, if_false]
    rw [ih (fun x hx => hp x (List.mem_cons_of_mem c hx)) (c :: acc)]
    simp

/-- A segment matches the empty string exactly when it is itself empty. -/
lemma segStarts_nil_right (p : List Char) : segStarts p [] = p.isEmpty := by
  cases p <;> rfl

/-- A segment without '_' matches at the head exactly as a literal string. -/
lemma segStarts_no_und (p : List Char) (hp : ∀ c ∈ p, (c == '_') = false) :
    ∀ t, segStarts p t = listStarts p t := by
  induction p with
  | nil => intro t; cases t <;> rfl
  | cons c ps ih =>
    intro t
    cases t with
    | nil => rfl
    | cons a rest =>
      have hc := hp c (List.mem_cons_self c ps)
      simp only [segStarts, listStarts, hc, Bool.false_eq_true, if_false]
      rw [ih (fun x hx => hp x (List.mem_cons_of_mem c hx)) rest]

/-- A single wildcard-free floating segment matches exactly by substring
containment. -/
lemma seqMatch_single_no_wild (p : List Char) (hp : ∀ c ∈ p, (c == '_') = false) :
    ∀ s, seqMatch [p] s = containsSub p s := by
  intro s
  induction s with
  | nil =>
    simp [seqMatch, suffixList, containsSub, segStarts_nil_right]
  | cons a rest ih =>
    have step : seqMatch [p] (a :: rest)
        = (segStarts p (a :: rest) || seqMatch [p] rest) := by
      simp only [seqMatch, suffixList, List.any_cons, Bool.and_true]
    rw [step, ih, segStarts_no_und p hp (a :: rest)]
    simp [containsSub]

/-- For filter values containing neither '%' nor '_', the LIKE '%value%'
match is exactly case-insensitive substring containment. -/
lemma likeContains_eq_substrCI (loc s : String)
    (hw : loc.data.all (fun c => !(c == '%') && !(c == '_')) = true) :
    likeContains loc s = substrCI loc s := by
  have hw2 := foldCase_no_wild loc hw
  rw [List.all_eq_true] at hw2
  have hpct : ∀ c ∈ foldCase loc, (c == '%') = false := by
    intro c hc
    have h := hw2 c hc
    simp only [Bool.and_eq_true, Bool.not_eq_true'] at h
    exact h.1
  have hund : ∀ c ∈ foldCase loc, (c == '_') = false := by
    intro c hc
    have h := hw2 c hc
    simp only [Bool.and_eq_true, Bool.not_eq_true'] at h
    exact h.2
  unfold likeContains substrCI
  rw [splitPercent_no_pct (foldCase loc) hpct []]
  simp only [List.reverse_nil, List.nil_append]
  exact seqMatch_single_no_wild (foldCase loc) hund (foldCase s)

/-- Claim C8 counterexample: the listing result for filters
location = "a%b" and status = "AVAILABLE" contains a space whose location
"axb" does NOT contain the substring "a%b" (even up to case) and whose
status "available" is not literally equal to "AVAILABLE": the location
filter is a LIKE pattern match with '%' as a wildcard, not a substring test,
and the status filter matches case-insensitively, not exactly. -/
theorem allspaces_substr_exact_claim_false :
    exSpL ∈ allspaces exDbL (some "a%b") (some "AVAILABLE") ∧
    substrCI "a%b" exSpL.location = false ∧
    exSpL.status ≠ "AVAILABLE" :=
  ⟨by decide, by decide, by decide⟩

/-- Claim C8 as amended: listing accepts an optional location filter
interpreted as the SQL pattern LIKE '%location%' under the store's default
case-insensitive collation — '%' and '_' in the supplied value act as
wildcards, and for values containing neither the filter is exactly
case-insensitive substring containment — and an optional status filter
matching by case-insensitive string equality; with both supplied the result
holds exactly the spaces satisfying both (AND semantics), and with neither
supplied it holds all spaces. -/
theorem allspaces_like_semantics (db : Db) (loc st : String) (sp : Space)
    (hl : loc ≠ "") (hs : st ≠ "") :
    (sp ∈ allspaces db (some loc) (some st) ↔
      sp ∈ db.spaces ∧ likeContains loc sp.location = true ∧
        sqlEqCI sp.status st = true) ∧
    allspaces db none none = db.spaces ∧
    (loc.data.all (fun c => !(c == '%') && !(c == '_')) = true →
      likeContains loc sp.location = substrCI loc sp.location) := by
  have hl2 : (loc == "") = false := by simp [hl]
  have hs2 : (st == "") = false := by simp [hs]
  refine ⟨?_, rfl, ?_⟩
  · simp only [allspaces, hl2, hs2, Bool.false_eq_true, if_false, List.mem_filter,
      and_assoc]
  · intro hw
    exact likeContains_eq_substrCI loc sp.location hw

/-- Witness for allspaces_like_semantics: the filter pair ("LAB",
"AVAILABLE") — both upper case, "LAB" wildcard-free — against the space
located in "Science lab wing" with status "available". -/
theorem allspaces_like_semantics_witness :
    (("LAB" : String) ≠ "" ∧ ("AVAILABLE" : String) ≠ "") ∧
    ((exSp8 ∈ allspaces exDb8 (some "LAB") (some "AVAILABLE") ↔
       exSp8 ∈ exDb8.spaces ∧ likeContains "LAB" exSp8.location = true ∧
         sqlEqCI exSp8.status "AVAILABLE" = true) ∧
     allspaces exDb8 none none = exDb8.spaces ∧
     (("LAB" : String).data.all (fun c => !(c == '%') && !(c == '_')) = true →
       likeContains "LAB" exSp8.location = substrCI "LAB" exSp8.location)) :=
  ⟨⟨by decide, by decide⟩,
   allspaces_like_semantics exDb8 "LAB" "AVAILABLE" exSp8 (by decide) (by decide)⟩

/-- Mapping a rewrite of character c over a list without c changes nothing. -/
lemma occZero_map (c d : Char) (l : List Char) (h : occCount c l = 0) :
    l.map (fun x => if x == c then d else x) = l := by
  induction l with
  | nil => rfl
  | cons a l ih =>
    simp only [occCount] at h
    by_cases ha : a = c
    · exfalso
      rw [if_pos (by simp [ha])] at h
      omega
    · have hac : (a == c) = false := by simp [ha]
      rw [if_neg (by simp [ha]), Nat.zero_add] at h
      simp only [List.map_cons]
      rw [if_neg (by simp [ha]), ih h]

/-- Filtering out character c from a list without c changes nothing. -/
lemma occZero_filter (c : Char) (l : List Char) (h : occCount c l = 0) :
    l.filter (fun x => !(x == c)) = l := by
  induction l with
  | nil => rfl
  | cons a l ih =>
    simp only [occCount] at h
    by_cases ha : a = c
    · exfalso
      rw [if_pos (by simp [ha])] at h
      omega
    · have hac : (a == c) = false := by simp [ha]
      rw [if_neg (by simp [ha]), Nat.zero_add] at h
      rw [List.filter_cons_of_pos (by simp [hac]), ih h]

/-- On a list holding at most one occurrence of c, the JavaScript
first-occurrence replace agrees with replacing every occurrence. -/
lemma jsReplaceFirst_eq_map (c d : Char) (l : List Char) (h : occCount c l ≤ 1) :
    jsReplaceFirst [c] [d] l = l.map (fun x => if x == c then d else x) := by
  induction l with
  | nil => rfl
  | cons a l ih =>
    have hstart : listStarts [c] (a :: l) = (c == a) := by simp [listStarts]
    simp only [occCount] at h
    by_cases ha : a = c
    · have hca : (c == a) = true := by simp [ha]
      have hac : (a == c) = true := by simp [ha]
      have h0 : occCount c l = 0 := by
        rw [if_pos (by simp [ha])] at h
        omega
      simp only [jsReplaceFirst, hstart, hca, if_true, List.length_singleton,
        List.drop_succ_cons, List.drop_zero, List.singleton_append, List.map_cons]
      rw [if_pos hac, occZero_map c d l h0]
    · have hca : (c == a) = false := by
        rw [beq_eq_false_iff_ne]
        exact fun hcon => ha hcon.symm
      have hac : (a == c) = false := by simp [ha]
      have hle : occCount c l ≤ 1 := by
        rw [if_neg (by simp [ha]), Nat.zero_add] at h
        exact h
      simp only [jsReplaceFirst, hstart, hca, Bool.false_eq_true, if_false,
        List.map_cons]
      rw [if_neg (by simp [hac]), ih hle]

/-- On a list holding at most one occurrence of c, the JavaScript
first-occurrence removal agrees with removing every occurrence. -/
lemma jsReplaceFirst_eq_filter (c : Char) (l : List Char) (h : occCount c l ≤ 1) :
    jsReplaceFirst [c] [] l = l.filter (fun x => !(x == c)) := by
  induction l with
  | nil => rfl
  | cons a l ih =>
    have hstart : listStarts [c] (a :: l) = (c == a) := by simp [listStarts]
    simp only [occCount] at h
    by_cases ha : a = c
    · have hca : (c == a) = true := by simp [ha]
      have hac : (a == c) = true := by simp [ha]
      have h0 : occCount c l = 0 := by
        rw [if_pos (by simp [ha])] at h
        omega
      simp only [jsReplaceFirst, hstart, hca, if_true, List.length_singleton,
        List.drop_succ_cons, List.drop_zero, List.nil_append]
      rw [List.filter_cons_of_neg (by simp [hac]), occZero_filter c l h0]
    · have hca : (c == a) = false := by
        rw [beq_eq_false_iff_ne]
        exact fun hcon => ha hcon.symm
      have hac : (a == c) = false := by simp [ha]
      have hle : occCount c l ≤ 1 := by
        rw [if_neg (by simp [ha]), Nat.zero_add] at h
        exact h
      simp only [jsReplaceFirst, hstart, hca, Bool.false_eq_true, if_false]
      rw [List.filter_cons_of_pos (by simp [hac]), ih hle]

/-- The T-to-space rewrite of a character never changes whether it is
'Z'. -/
lemma tRewrite_preserves_Z (x : Char) :
    ((if x == 'T' then ' ' else x) == 'Z') = (x == 'Z') := by
  by_cases hx : x = 'T'
  · subst hx
    decide
  · rw [if_neg (by simp [hx])]

/-- Replacing 'T' by a space neither creates nor destroys occurrences of
'Z'. -/
lemma occCount_map_tZ (l : List Char) :
    occCount 'Z' (l.map (fun x => if x == 'T' then ' ' else x)) = occCount 'Z' l := by
  induction l with
  | nil => rfl
  | cons a l ih =>
    simp only [List.map_cons, occCount, tRewrite_preserves_Z, ih]

/-- Claim C10 counterexample: on the string "TZTZ" the source normalization
(JavaScript replace, first occurrence only) disagrees with the rewrite that
replaces every 'T' and removes every 'Z'. -/
theorem formatMySQLDatetime_ne_specRewrite :
    formatMySQLDatetime "TZTZ" ≠ specRewrite "TZTZ" := by decide

/-- Claim C10 as amended: the normalization replaces only the FIRST
occurrence of 'T' by a space and removes only the FIRST occurrence of 'Z'
(which, on strings holding at most one 'T' and at most one 'Z' — every
ISO-8601 timestamp, including those with an offset such as '+08:00' —
coincides with the full rewrite and passes all other content through
unchanged), and the book operation's overlap comparison is performed on
these rewritten strings. -/
theorem formatMySQLDatetime_first_occurrence (s : String) (db : Db) (u sp : Nat)
    (st et : String)
    (hT : occCount 'T' s.data ≤ 1) (hZ : occCount 'Z' s.data ≤ 1)
    (hu : u ≠ 0) (hsp : sp ≠ 0) (hst : st ≠ "") (het : et ≠ "")
    (havail : ∃ r ∈ db.spaces, r.space_id = sp ∧ r.status = "available") :
    formatMySQLDatetime s = specRewrite s ∧
    ((bookspace db u sp st et).1 = BookResult.timeConflict ↔
      ∃ b ∈ db.bookings, b.space_id = sp ∧
        sqlLt b.start_time (formatMySQLDatetime et) = true ∧
        sqlLt (formatMySQLDatetime st) b.end_time = true) := by
  constructor
  · have e1 : formatMySQLDatetime s
        = String.mk (jsReplaceFirst ['Z'] [] (jsReplaceFirst ['T'] [' '] s.data)) := rfl
    rw [e1, jsReplaceFirst_eq_map 'T' ' ' s.data hT,
      jsReplaceFirst_eq_filter 'Z' _ (by rw [occCount_map_tZ]; exact hZ)]
    rfl
  · have h1 : (u == 0 || sp == 0 || st == "" || et == "") = false := by
      simp [hu, hsp, hst, het]
    have h2 : (spaceAvailQuery db sp).isEmpty = false := by
      obtain ⟨r, hr, hid, hstat⟩ := havail
      exact filter_isEmpty_false_of_mem _ _ r hr (by simp [hid, hstat])
    have hiff : ((overlapQuery db sp (formatMySQLDatetime st)
        (formatMySQLDatetime et)).isEmpty = false ↔
        ∃ b ∈ db.bookings, b.space_id = sp ∧
          sqlLt b.start_time (formatMySQLDatetime et) = true ∧
          sqlLt (formatMySQLDatetime st) b.end_time = true) := by
      unfold overlapQuery
      rw [filter_isEmpty_false_iff]
      constructor
      · rintro ⟨b, hbm, hp⟩
        simp only [Bool.and_eq_true, beq_iff_eq] at hp
        exact ⟨b, hbm, hp.1.1, hp.1.2, hp.2⟩
      · rintro ⟨b, hbm, hid, hlt1, hlt2⟩
        exact ⟨b, hbm, by simp [hid, hlt1, hlt2]⟩
    cases hov : (overlapQuery db sp (formatMySQLDatetime st)
        (formatMySQLDatetime et)).isEmpty with
    | false =>
      have hres : (bookspace db u sp st et).1 = BookResult.timeConflict := by
        simp [bookspace, h1, h2, hov]
      rw [hres]
      exact iff_of_true rfl (hiff.mp hov)
    | true =>
      have hres : (bookspace db u sp st et).1 = BookResult.ok := by
        simp [bookspace, h1, h2, hov]
      rw [hres]
      constructor
      · intro hcon
        exact BookResult.noConfusion hcon
      · intro hP
        have hfalse := hiff.mpr hP
        rw [hov] at hfalse
        exact Bool.noConfusion hfalse

/-- Witness for formatMySQLDatetime_first_occurrence: the offset timestamp
"2025-04-04T10:30:00+08:00" is rewritten with its offset passed through
unchanged, and on exDb10 the conflict outcome tracks the overlap test on the
rewritten request times. -/
theorem formatMySQLDatetime_first_occurrence_witness :
    (occCount 'T' ("2025-04-04T10:30:00+08:00" : String).data ≤ 1 ∧
     occCount 'Z' ("2025-04-04T10:30:00+08:00" : String).data ≤ 1 ∧
     (3 : Nat) ≠ 0 ∧ (6 : Nat) ≠ 0 ∧
     ("2025-04-04T10:30:00Z" : String) ≠ "" ∧
     ("2025-04-04T11:30:00Z" : String) ≠ "" ∧
     (∃ r ∈ exDb10.spaces, r.space_id = 6 ∧ r.status = "available")) ∧
    (formatMySQLDatetime "2025-04-04T10:30:00+08:00" =
        specRewrite "2025-04-04T10:30:00+08:00" ∧
     ((bookspace exDb10 3 6 "2025-04-04T10:30:00Z" "2025-04-04T11:30:00Z").1 =
          BookResult.timeConflict ↔
        ∃ b ∈ exDb10.bookings, b.space_id = 6 ∧
          sqlLt b.start_time (formatMySQLDatetime "2025-04-04T11:30:00Z") = true ∧
          sqlLt (formatMySQLDatetime "2025-04-04T10:30:00Z") b.end_time = true)) :=
  ⟨⟨by decide, by decide, by decide, by decide, by decide, by decide, by decide⟩,
   formatMySQLDatetime_first_occurrence "2025-04-04T10:30:00+08:00" exDb10 3 6
     "2025-04-04T10:30:00Z" "2025-04-04T11:30:00Z" (by decide) (by decide)
     (by decide) (by decide) (by decide) (by decide) (by decide)⟩
